import Mathlib

/-!
Verification of the psc-datalogger core against its natural-language
specification.

The development shallowly embeds the Python modules
`psc_datalogger/thermocouple/thermocouple.py` and
`psc_datalogger/connection.py`:

* Python `float` arithmetic is modelled by exact rational arithmetic (`ℚ`);
  every constant appearing in the source is a decimal literal that is exact
  in `ℚ`.
* Python exceptions are modelled by the `Except PyExc` monad; the distinct
  exception classes that the code can raise or catch become constructors of
  `PyExc`.
* Python's dynamic typing at the one call site where it matters (the
  `volts_to_celcius` assert compares a `float` bound with its argument,
  which the caller `Worker.query_instruments` passes as a `str`) is
  modelled by the `PyVal` type together with `pyLt`, the semantics of the
  `<` comparison: comparing a `float` with a `str` raises `TypeError`.
* Mutable worker state becomes explicit state passing: a method that
  mutates `self` returns the new state, and — matching Python semantics —
  returns the mutated state even when it also raises, since mutations made
  before the raise persist.
-/

/-- Python exception kinds distinguished by the embedded code: `TypeError`
(raised by `<` on incomparable values), `AssertionError` (a failed `assert`),
`ValueError` (`int()` on a bad string, `_init_instrument` on a bad address),
`pyvisa.VisaIOError` (device I/O failure), and the repository's own
`PrologixNotFoundException`. -/
inductive PyExc
  | typeError
  | assertionError
  | valueError
  | visaIOError
  | prologixNotFound
  deriving DecidableEq, Repr

/-- A Python value as it can flow into `volts_to_celcius`: either a `float`
(modelled exactly as a rational) or a `str`. -/
inductive PyVal
  | float (q : ℚ)
  | str (s : String)
  deriving DecidableEq, Repr

/-- Semantics of Python's `<` on the values of `PyVal`: floats compare
numerically, strings compare lexicographically, and a mixed comparison
raises `TypeError`. -/
def pyLt (x y : PyVal) : Except PyExc Bool :=
  match x, y with
  | PyVal.float a, PyVal.float b => Except.ok (decide (a < b))
  | PyVal.str a, PyVal.str b => Except.ok (decide (a < b))
  | _, _ => Except.error PyExc.typeError

/-- The coefficient record of `thermocouple.py` (`namedtuple("Coeffs", ...)`). -/
structure Coeffs where
  a : ℚ
  b : ℚ
  c : ℚ
  d : ℚ
  deriving DecidableEq, Repr

/-- The fitted cubic coefficients, exactly the literals of `thermocouple.py`. -/
def coefficients : Coeffs :=
  ⟨-0.000725393446104, 25.346167279763222, -0.391455002477827, 0.039232630522331⟩

/-- The cubic polynomial `a + b·v + c·v² + d·v³` computed by the return
statement of `volts_to_celcius`. -/
def thermoPoly (v : ℚ) : ℚ :=
  coefficients.a + coefficients.b * v + coefficients.c * v ^ 2 + coefficients.d * v ^ 3

/-- Embedding of `thermocouple.volts_to_celcius`.  The Python body is

  assert -0.778 < millivolts < 2.436, "..."
  return a + b*millivolts + c*millivolts**2 + d*millivolts**3

The chained comparison evaluates `-0.778 < millivolts` first; if that
comparison itself raises (as it does when `millivolts` is a `str`) the
exception propagates; if it is false the assert raises `AssertionError`
without evaluating the second comparison; otherwise `millivolts < 2.436`
is evaluated the same way.  Arithmetic on a `str` would also raise
`TypeError` (that branch is unreachable: a `str` argument already fails in
the first comparison). -/
def volts_to_celcius (millivolts : PyVal) : Except PyExc PyVal :=
  match pyLt (PyVal.float (-0.778)) millivolts with
  | Except.error e => Except.error e
  | Except.ok lo =>
    if lo then
      match pyLt millivolts (PyVal.float 2.436) with
      | Except.error e => Except.error e
      | Except.ok hi =>
        if hi then
          match millivolts with
          | PyVal.float v => Except.ok (PyVal.float (thermoPoly v))
          | PyVal.str _ => Except.error PyExc.typeError
        else Except.error PyExc.assertionError
    else Except.error PyExc.assertionError

/-! Embedding of `psc_datalogger/connection.py`. -/

/-- A `datetime.datetime` value as the connection code observes it: the code
only ever renders a timestamp two ways, `str(timestamp)` (written to the CSV
row) and `timestamp.isoformat(sep=" ", timespec="seconds")` (put into the
error message), so a timestamp is modelled by that pair of renderings. -/
structure Datetime where
  strRepr : String
  isoSeconds : String
  deriving DecidableEq

/-- The constant `Worker.ERROR_STRING`: marks a measurement that could not
be taken; also written to the results file. -/
def ERROR_STRING : String := "#ERROR"

/-- The per-slot configuration dataclass `InstrumentConfig`; defaults
`address = -1`, `measure_temp = False`. -/
structure InstrumentConfig where
  address : Int
  measure_temp : Bool
  deriving DecidableEq

/-- The header list `DataWriter.csv_fieldnames`. -/
def csv_fieldnames : List String :=
  ["timestamp", "instrument 1", "instrument 2", "instrument 3"]

/-- Whether Python's `csv` excel dialect must quote a field
(QUOTE_MINIMAL: the field contains the delimiter, the quote character or a
line break). -/
def csvNeedsQuote (f : String) : Bool :=
  f.data.any (fun c => c == ',' || c == '"' || c == '\r' || c == '\n')

/-- Excel-dialect quoting of one field: wrap in double quotes, doubling any
embedded quote character. -/
def csvQuote (f : String) : String :=
  "\"" ++ String.mk (f.data.flatMap (fun c => if c == '"' then ['"', '"'] else [c])) ++ "\""

/-- One encoded CSV field under the excel dialect. -/
def csvField (f : String) : String :=
  if csvNeedsQuote f then csvQuote f else f

/-- Comma-join of already-encoded fields. -/
def csvJoin : List String → String
  | [] => ""
  | [f] => f
  | f :: g :: rest => f ++ "," ++ csvJoin (g :: rest)

/-- One CSV record as `csv.DictWriter.writerow` emits it (excel dialect,
before the `\r\n` terminator). -/
def csvLine (fields : List String) : String :=
  csvJoin (fields.map csvField)

/-- The `DataWriter` of `connection.py`.  The owned file is modelled by the
list of lines (CSV records) flushed to it, each line terminated by `\r\n`
in the real file; `__init__` opens the file and immediately writes and
flushes the header row. -/
structure DataWriter where
  lines : List String
  deriving DecidableEq

/-- `DataWriter(filepath)`: a fresh file holding exactly the header row. -/
def DataWriter.create : DataWriter :=
  ⟨[csvLine csv_fieldnames]⟩

/-- `DataWriter.write`: append one row of `str(timestamp)` and the three
readings, flushing the file (the flush is implicit here: the model's file
content always reflects every completed write). -/
def DataWriter.write (w : DataWriter) (timestamp : Datetime)
    (ins_1 ins_2 ins_3 : String) : DataWriter :=
  ⟨w.lines ++ [csvLine [timestamp.strRepr, ins_1, ins_2, ins_3]]⟩

/-- The mutable state of `Worker` that the embedded methods touch: the
polling interval (seconds), the optional `DataWriter`, the optional
connection handle (the resource name found by `init_connection`), and the
three-slot ordered registry `instrument_addresses` (slots 1, 2, 3 in fixed
iteration order). -/
structure WorkerState where
  interval : ℚ
  writer : Option DataWriter
  connection : Option String
  ins1 : InstrumentConfig
  ins2 : InstrumentConfig
  ins3 : InstrumentConfig
  deriving DecidableEq

/-- Decimal value of a non-empty all-digit character sequence, `none`
otherwise. -/
def parseNatChars (cs : List Char) : Option Nat :=
  if cs ≠ [] ∧ cs.all Char.isDigit then
    some (cs.foldl (fun acc c => acc * 10 + (c.toNat - 48)) 0)
  else none

/-- Python's `int(s)` on a string: an optionally-signed decimal literal
parses, anything else raises `ValueError`.  (Python also tolerates
surrounding whitespace and underscores; no caller here passes those.) -/
def py_int (s : String) : Except PyExc Int :=
  match s.data with
  | '-' :: rest =>
    match parseNatChars rest with
    | some n => Except.ok (-(n : Int))
    | none => Except.error PyExc.valueError
  | '+' :: rest =>
    match parseNatChars rest with
    | some n => Except.ok (n : Int)
    | none => Except.error PyExc.valueError
  | cs =>
    match parseNatChars cs with
    | some n => Except.ok (n : Int)
    | none => Except.error PyExc.valueError

/-- Replace one slot of the registry, keyed by instrument number 1..3;
any other key leaves the state unchanged (callers only reach this through
the slot-number assert). -/
def setSlot (st : WorkerState) (n : Int) (cfg : InstrumentConfig) : WorkerState :=
  if n = 1 then { st with ins1 := cfg }
  else if n = 2 then { st with ins2 := cfg }
  else if n = 3 then { st with ins3 := cfg }
  else st

/-- The device command sequence `Worker._init_instrument` writes for a
valid address. -/
def init_commands (gpib_address : Int) : List String :=
  ["++addr " ++ toString gpib_address, "++auto 1", "PRESET NORM", "BEEP 0",
    "CLEAR", "TRIG HOLD"]

/-- Embedding of `Worker._init_instrument`: a non-positive address raises
`ValueError` before any device interaction; otherwise the command sequence
is written to the bridge.  `deviceRaises` abstracts whether the device I/O
raises `pyvisa.VisaIOError` (an uncaught write failure; the read timeouts
tolerated while draining the buffer are not raises of this method).  On
success the value is the list of commands sent. -/
def init_instrument (instrument : InstrumentConfig) (deviceRaises : Bool) :
    Except PyExc (List String) :=
  if instrument.address ≤ 0 then Except.error PyExc.valueError
  else if deviceRaises then Except.error PyExc.visaIOError
  else Except.ok (init_commands instrument.address)

/-- Embedding of `Worker.set_instrument`.  The slot-number assert runs
first; then `int(gpib_address)`; then the registry slot is replaced; then
`_init_instrument` runs synchronously on the just-stored configuration.
The returned state is the state after the raise point, matching Python's
mutation semantics: a raise inside `_init_instrument` leaves the new
configuration in the registry. -/
def set_instrument (st : WorkerState) (instrument_number : Int)
    (gpib_address : String) (measure_temp : Bool) (deviceRaises : Bool) :
    Except PyExc Unit × WorkerState :=
  if 1 ≤ instrument_number ∧ instrument_number ≤ 3 then
    match py_int gpib_address with
    | Except.error e => (Except.error e, st)
    | Except.ok address =>
      let st2 := setSlot st instrument_number ⟨address, measure_temp⟩
      match init_instrument ⟨address, measure_temp⟩ deviceRaises with
      | Except.ok _ => (Except.ok (), st2)
      | Except.error e => (Except.error e, st2)
  else (Except.error PyExc.assertionError, st)

/-- Embedding of `Worker.validate_parameters`: False when every slot
address is non-positive, when the interval is non-positive, or when no
writer has been created; True otherwise. -/
def validate_parameters (st : WorkerState) : Bool :=
  if st.ins1.address ≤ 0 ∧ st.ins2.address ≤ 0 ∧ st.ins3.address ≤ 0 then false
  else if st.interval ≤ 0 then false
  else if st.writer = none then false
  else true

/-- Outcome of the device interaction for one configured slot inside
`Worker.query_instruments`: either some call in the
`write("++addr ...")` / `query("TRIG SGL")` pair raises, or the query
returns a raw response string. -/
inductive QueryOutcome
  | raises
  | responds (raw : String)
  deriving DecidableEq

/-- The response clean-up of `query_instruments`:
`val.strip(" \r\n").replace("\x00", "")` — strip the characters
space/CR/LF from both ends, then delete every NUL byte. -/
def clean_response (raw : String) : String :=
  let isStripped : Char → Bool := fun c => c == ' ' || c == '\r' || c == '\n'
  String.mk
    ((((raw.data.dropWhile isStripped).reverse.dropWhile isStripped).reverse).filter
      (fun c => c != Char.ofNat 0))

/-- Python's `str()` applied to the value produced by `volts_to_celcius`.
On every path reachable from `query_instruments` the conversion raises
before producing a value (its argument is a `str`), so this rendering
never appears in an observable result; floats are rendered by the rational
printer. -/
def pyRepr : PyVal → String
  | PyVal.float q => toString q
  | PyVal.str s => s

/-- The body of the `query_instruments` loop for one slot.  An
unconfigured slot (address ≤ 0) contributes an empty reading without
consulting the device.  A device raise is caught by `except Exception` and
becomes `ERROR_STRING`.  Otherwise the cleaned response is, for a
temperature slot, passed (still a `str`!) to `volts_to_celcius` inside
`try ... except AssertionError`: an `AssertionError` becomes
`ERROR_STRING`, while any other exception — in particular the `TypeError`
that the float/str comparison actually raises — propagates out of the
loop. -/
def query_slot (i : InstrumentConfig) (outcome : QueryOutcome) :
    Except PyExc String :=
  if i.address ≤ 0 then Except.ok ""
  else
    match outcome with
    | QueryOutcome.raises => Except.ok ERROR_STRING
    | QueryOutcome.responds raw =>
      let val := clean_response raw
      if i.measure_temp then
        match volts_to_celcius (PyVal.str val) with
        | Except.ok v => Except.ok (pyRepr v)
        | Except.error PyExc.assertionError => Except.ok ERROR_STRING
        | Except.error e => Except.error e
      else Except.ok val

/-- Embedding of `Worker.query_instruments`: the three slots are processed
in registry order 1 → 2 → 3; an exception escaping one slot's body aborts
the remaining slots and propagates; on completion the result is the
timestamp taken at entry (`datetime.now()`, passed in as `now`) followed
by exactly three readings. -/
def query_instruments (st : WorkerState) (o1 o2 o3 : QueryOutcome)
    (now : Datetime) : Except PyExc (Datetime × String × String × String) :=
  match query_slot st.ins1 o1 with
  | Except.error e => Except.error e
  | Except.ok m1 =>
    match query_slot st.ins2 o2 with
    | Except.error e => Except.error e
    | Except.ok m2 =>
      match query_slot st.ins3 o3 with
      | Except.error e => Except.error e
      | Except.ok m3 => Except.ok (now, m1, m2, m3)

/-- The two Qt signals `Worker.do_logging` can emit after a pass:
`error` with a message string, or `query_complete` with the pass
timestamp. -/
inductive Notification
  | errorMsg (msg : String)
  | queryComplete (timestamp : Datetime)
  deriving DecidableEq

/-- Embedding of `Worker.do_logging`: assert the connection and writer
exist, run `query_instruments`, emit `error` (with the human-readable
seconds-precision timestamp) when any reading equals `ERROR_STRING` and
`query_complete` (with the pass timestamp) otherwise, then write the row.
The value on success is the writer after its single `write` call together
with the emitted notification; an exception escaping `query_instruments`
propagates and nothing is emitted or written.  (The Python `any` also
compares the tuple's datetime element against the sentinel string; on a
`datetime` that equality is simply `False`.) -/
def do_logging (st : WorkerState) (o1 o2 o3 : QueryOutcome) (now : Datetime) :
    Except PyExc (DataWriter × Notification) :=
  match st.connection, st.writer with
  | none, _ => Except.error PyExc.assertionError
  | some _, none => Except.error PyExc.assertionError
  | some _, some w =>
    match query_instruments st o1 o2 o3 now with
    | Except.error e => Except.error e
    | Except.ok (t, r1, r2, r3) =>
      let note :=
        if r1 = ERROR_STRING ∨ r2 = ERROR_STRING ∨ r3 = ERROR_STRING then
          Notification.errorMsg ("Unable to read data " ++ t.isoSeconds)
        else Notification.queryComplete t
      Except.ok (w.write t r1 r2 r3, note)

/-- Outcome of probing one enumerated serial resource in
`Worker.init_connection`: `open_resource` followed by `query("++help")`
either raises `pyvisa.VisaIOError` (timeout — not the device) or returns
the help response. -/
inductive ProbeOutcome
  | raises
  | responds (help_str : String)
  deriving DecidableEq

/-- Whether a probed resource confirms it is the Prologix controller: a
response was received and it is non-empty (`len(help_str) > 0`). -/
def resource_confirms : String × ProbeOutcome → Bool
  | (_, ProbeOutcome.raises) => false
  | (_, ProbeOutcome.responds h) => decide (0 < h.length)

/-- The scanning loop of `init_connection` over an already-ordered list of
resources: return the first resource that confirms, or `none` when the
list is exhausted (the loop's `else` branch). -/
def scan_resources : List (String × ProbeOutcome) → Option String
  | [] => none
  | (_, ProbeOutcome.raises) :: rest => scan_resources rest
  | (name, ProbeOutcome.responds h) :: rest =>
    if 0 < h.length then some name else scan_resources rest

/-- Embedding of `Worker.init_connection`: the enumerated resources are
probed in reverse enumeration order; if none confirms (or none exist) the
method raises the dedicated `PrologixNotFoundException` and
`self.connection` is never assigned — here, an `Except.error` result
carries no handle by construction.  On success the value is the confirmed
resource, which becomes the connection handle. -/
def init_connection (resources : List (String × ProbeOutcome)) :
    Except PyExc String :=
  match scan_resources resources.reverse with
  | some name => Except.ok name
  | none => Except.error PyExc.prologixNotFound

/-- C2: for every float input strictly inside (-0.778, 2.436) the conversion
succeeds and returns exactly the cubic `a + b·v + c·v² + d·v³` with the
fixed coefficients (determinism and purity are immediate: the embedding is
a total function); for every float input outside the open interval,
endpoints included, it raises the range `AssertionError`. -/
theorem volts_to_celcius_range_spec (v : ℚ) :
    (-0.778 < v → v < 2.436 →
      volts_to_celcius (PyVal.float v) =
        Except.ok (PyVal.float
          (coefficients.a + coefficients.b * v +
            coefficients.c * v ^ 2 + coefficients.d * v ^ 3)))
    ∧ (¬ (-0.778 < v ∧ v < 2.436) →
      volts_to_celcius (PyVal.float v) = Except.error PyExc.assertionError) := by
  constructor
  · intro h1 h2
    simp [volts_to_celcius, pyLt, h1, h2, thermoPoly]
  · intro h
    by_cases h1 : (-0.778 : ℚ) < v
    · have h2 : ¬ v < 2.436 := fun hlt => h ⟨h1, hlt⟩
      simp [volts_to_celcius, pyLt, h1, h2]
    · simp [volts_to_celcius, pyLt, h1]

/-- Witness for C2 at the concrete inputs 1 (inside the range) and 3
(outside the range). -/
theorem volts_to_celcius_range_spec_witness :
    volts_to_celcius (PyVal.float 1) =
      Except.ok (PyVal.float
        (coefficients.a + coefficients.b * 1 +
          coefficients.c * 1 ^ 2 + coefficients.d * 1 ^ 3))
    ∧ volts_to_celcius (PyVal.float 3) = Except.error PyExc.assertionError := by
  constructor
  · exact (volts_to_celcius_range_spec 1).1 (by norm_num) (by norm_num)
  · exact (volts_to_celcius_range_spec 3).2 (by norm_num)

/-- C4 evaluated on the code: at input 0.0 the conversion returns the
constant coefficient, which is within 0.01 of 0 °C as claimed; but at input
1.203e-3 the conversion returns `thermoPoly (1203/1000000) ≈ 0.0298`, which
is *not* within 0.01 of 30 °C — it differs from 30 by more than 29.  (The
polynomial was fitted with inputs in millivolt units, where
`thermoPoly 1.203 ≈ 30`; the repository's own test
`test_volts_to_celcius_valid` feeds `1.203e-3` and expects 30, which the
code fails.) -/
theorem volts_to_celcius_test_points :
    volts_to_celcius (PyVal.float 0) = Except.ok (PyVal.float (thermoPoly 0))
    ∧ |thermoPoly 0 - 0| < 1 / 100
    ∧ volts_to_celcius (PyVal.float (1203 / 1000000)) =
        Except.ok (PyVal.float (thermoPoly (1203 / 1000000)))
    ∧ 29 < |thermoPoly (1203 / 1000000) - 30|
    ∧ |thermoPoly (1203 / 1000000)| < 3 / 100 := by
  refine ⟨?_, ?_, ?_, ?_, ?_⟩
  · exact (volts_to_celcius_range_spec 0).1 (by norm_num) (by norm_num)
  · simp only [thermoPoly, coefficients]
    norm_num [abs_lt]
  · exact (volts_to_celcius_range_spec (1203 / 1000000)).1 (by norm_num) (by norm_num)
  · simp only [thermoPoly, coefficients]
    norm_num [lt_abs]
  · simp only [thermoPoly, coefficients]
    norm_num [abs_lt]

/-! Concrete fixtures used by witnesses and evaluations. -/

/-- A fixed concrete timestamp. -/
def dt0 : Datetime := ⟨"2024-03-06 09:15:30", "2024-03-06 09:15:30"⟩

/-- A worker state with slot 1 configured for plain voltage readings and
slots 2, 3 left unconfigured. -/
def sampleState : WorkerState :=
  ⟨1, some DataWriter.create, some "ASRL1::INSTR", ⟨22, false⟩, ⟨-1, false⟩,
    ⟨-1, false⟩⟩

/-- A worker state with slot 1 configured for temperature conversion. -/
def tempState : WorkerState :=
  ⟨1, some DataWriter.create, some "ASRL1::INSTR", ⟨22, true⟩, ⟨-1, false⟩,
    ⟨-1, false⟩⟩

/-- A worker state with all three slots configured for plain voltage
readings. -/
def threeState : WorkerState :=
  ⟨1, some DataWriter.create, some "ASRL1::INSTR", ⟨22, false⟩, ⟨23, false⟩,
    ⟨24, false⟩⟩

/-- C6: `validate_parameters` returns True exactly when some slot has a
positive address, the interval is positive, and a writer target is set;
consequently it returns False when all addresses are unset, when the
interval is non-positive, or when no writer is set. -/
theorem validate_parameters_spec (st : WorkerState) :
    validate_parameters st = true ↔
      ((0 < st.ins1.address ∨ 0 < st.ins2.address ∨ 0 < st.ins3.address)
        ∧ 0 < st.interval ∧ st.writer ≠ none) := by
  unfold validate_parameters
  split_ifs with h1 h2 h3
  · simp only [Bool.false_eq_true, false_iff]
    rintro ⟨hpos, -, -⟩
    rcases h1 with ⟨a1, a2, a3⟩
    rcases hpos with h | h | h <;> omega
  · simp only [Bool.false_eq_true, false_iff]
    rintro ⟨-, hint, -⟩
    exact absurd hint (not_lt.mpr h2)
  · simp [h3]
  · simp only [true_iff]
    refine ⟨?_, not_le.mp h2, h3⟩
    by_contra hall
    push_neg at hall
    exact h1 ⟨hall.1, hall.2.1, hall.2.2⟩

/-- Witness for C6: `sampleState` (slot 1 at address 22, interval 1,
writer set) validates; clearing its writer invalidates it. -/
theorem validate_parameters_spec_witness :
    validate_parameters sampleState = true
    ∧ validate_parameters
        ⟨1, none, none, ⟨22, false⟩, ⟨-1, false⟩, ⟨-1, false⟩⟩ ≠ true := by
  constructor
  · exact (validate_parameters_spec sampleState).mpr
      ⟨Or.inl (by norm_num [sampleState]), by norm_num [sampleState],
        by simp [sampleState]⟩
  · intro h
    have := (validate_parameters_spec
      ⟨1, none, none, ⟨22, false⟩, ⟨-1, false⟩, ⟨-1, false⟩⟩).mp h
    exact this.2.2 rfl

/-- C8: for every instrument number outside {1,2,3}, and any address
string and conversion flag, `set_instrument` fails with the slot-number
`AssertionError` before parsing the address or touching the registry, and
the whole worker state is returned unchanged. -/
theorem set_instrument_invalid_slot (st : WorkerState) (n : Int) (a : String)
    (m d : Bool) (h : ¬ (1 ≤ n ∧ n ≤ 3)) :
    set_instrument st n a m d = (Except.error PyExc.assertionError, st) := by
  simp [set_instrument, h]

/-- Witness for C8 at the concrete invalid slot numbers 4 and 0. -/
theorem set_instrument_invalid_slot_witness :
    set_instrument sampleState 4 "123" false false
        = (Except.error PyExc.assertionError, sampleState)
    ∧ set_instrument sampleState 0 "123" true true
        = (Except.error PyExc.assertionError, sampleState) := by
  exact ⟨set_instrument_invalid_slot sampleState 4 "123" false false (by omega),
    set_instrument_invalid_slot sampleState 0 "123" true true (by omega)⟩

/-- C10: for a valid slot number whose address string parses, the returned
registry has that slot replaced by the new configuration whatever the
initialization outcome (no rollback on a raise), the call's own outcome is
exactly the synchronous `_init_instrument` outcome on the just-stored
configuration, and a non-positive parsed address makes that initialization
raise `ValueError` — loudly, never a silent no-op. -/
theorem set_instrument_applies_config (st : WorkerState) (n : Int)
    (a : String) (m d : Bool) (addr : Int) (h1 : 1 ≤ n) (h2 : n ≤ 3)
    (hp : py_int a = Except.ok addr) :
    (set_instrument st n a m d).2 = setSlot st n ⟨addr, m⟩
    ∧ (set_instrument st n a m d).1
        = (init_instrument ⟨addr, m⟩ d).map (fun _ => ())
    ∧ (addr ≤ 0 →
        (set_instrument st n a m d).1 = Except.error PyExc.valueError) := by
  have hn : (1 ≤ n ∧ n ≤ 3) := ⟨h1, h2⟩
  by_cases ha : addr ≤ 0
  · cases d <;>
      simp [set_instrument, hn, hp, init_instrument, ha, Except.map]
  · cases d <;>
      simp [set_instrument, hn, hp, init_instrument, ha, Except.map]

/-- Witness for C10: configuring slot 2 with the parsed address 0 stores
the new configuration in slot 2 and raises `ValueError`; configuring
slot 1 with address 44 and a raising device keeps the new configuration
while propagating `VisaIOError`. -/
theorem set_instrument_applies_config_witness :
    (set_instrument sampleState 2 "0" true false).2
        = setSlot sampleState 2 ⟨0, true⟩
    ∧ (set_instrument sampleState 2 "0" true false).1
        = Except.error PyExc.valueError
    ∧ (set_instrument sampleState 1 "44" true true).2
        = setSlot sampleState 1 ⟨44, true⟩
    ∧ (set_instrument sampleState 1 "44" true true).1
        = Except.error PyExc.visaIOError := by
  have h0 := set_instrument_applies_config sampleState 2 "0" true false 0
    (by omega) (by omega) rfl
  have h44 := set_instrument_applies_config sampleState 1 "44" true true 44
    (by omega) (by omega) rfl
  refine ⟨h0.1, h0.2.2 le_rfl, h44.1, ?_⟩
  rw [h44.2.1]
  rfl

/-- C5: whenever a polling pass completes (i.e. `query_instruments`
returns a timestamp and three readings), `do_logging` emits the `error`
notification carrying the human-readable seconds-precision timestamp
exactly when at least one reading column equals the sentinel, emits the
`query_complete` notification carrying the pass timestamp otherwise, and
in both cases hands the row to the writer exactly once: the resulting file
is the previous file plus exactly the one new row. -/
theorem do_logging_notification_spec (st : WorkerState)
    (o1 o2 o3 : QueryOutcome) (now t : Datetime) (r1 r2 r3 : String)
    (c : String) (w : DataWriter) (hc : st.connection = some c)
    (hw : st.writer = some w)
    (hq : query_instruments st o1 o2 o3 now = Except.ok (t, r1, r2, r3)) :
    do_logging st o1 o2 o3 now =
      Except.ok (w.write t r1 r2 r3,
        if r1 = ERROR_STRING ∨ r2 = ERROR_STRING ∨ r3 = ERROR_STRING then
          Notification.errorMsg ("Unable to read data " ++ t.isoSeconds)
        else Notification.queryComplete t)
    ∧ (w.write t r1 r2 r3).lines
        = w.lines ++ [csvLine [t.strRepr, r1, r2, r3]] := by
  constructor
  · unfold do_logging
    rw [hc, hw, hq]
  · rfl

/-- Witness for C5: with all three slots of `threeState` responding but
slot 2 raising, the pass completes with the sentinel in column 2 only, the
`error` notification is emitted with the readable timestamp, and the row
is written. -/
theorem do_logging_notification_spec_witness :
    do_logging threeState (QueryOutcome.responds " 1.5\r\n")
        QueryOutcome.raises (QueryOutcome.responds " 2.5\r\n") dt0 =
      Except.ok
        (DataWriter.write (DataWriter.create) dt0 "1.5" "#ERROR" "2.5",
          Notification.errorMsg
            ("Unable to read data " ++ dt0.isoSeconds)) := by
  have h := do_logging_notification_spec threeState
    (QueryOutcome.responds " 1.5\r\n") QueryOutcome.raises
    (QueryOutcome.responds " 2.5\r\n") dt0 dt0 "1.5" "#ERROR" "2.5"
    "ASRL1::INSTR" DataWriter.create rfl rfl rfl
  rw [h.1]
  rfl

/-- Helper: the scanning loop returns `none` exactly when no listed
resource confirms. -/
theorem scan_resources_eq_none_iff (l : List (String × ProbeOutcome)) :
    scan_resources l = none ↔ ∀ p ∈ l, resource_confirms p = false := by
  induction l with
  | nil => simp [scan_resources]
  | cons p rest ih =>
    obtain ⟨name, out⟩ := p
    cases out with
    | raises => simp [scan_resources, resource_confirms, ih]
    | responds h =>
      by_cases hh : 0 < h.length
      · simp [scan_resources, resource_confirms, hh]
      · simp [scan_resources, resource_confirms, hh, ih]

/-- C9: `init_connection` fails with the dedicated
`PrologixNotFoundException` exactly when no enumerated resource confirms
the identification probe (a raise or an empty response both meaning "not
the device"); in particular it fails on an empty resource list, and in the
failure case no connection handle exists (an `Except.error` carries none
by construction).  Probing is in reverse enumeration order: whenever the
most recently enumerated resource confirms, it is the one connected to,
whatever the rest of the list holds. -/
theorem init_connection_spec (rs : List (String × ProbeOutcome)) :
    (init_connection rs = Except.error PyExc.prologixNotFound ↔
      ∀ p ∈ rs, resource_confirms p = false)
    ∧ (rs = [] → init_connection rs = Except.error PyExc.prologixNotFound)
    ∧ ((∃ p ∈ rs, resource_confirms p = true) →
        ∃ nm, init_connection rs = Except.ok nm)
    ∧ (∀ front nm out, rs = front ++ [(nm, out)] →
        resource_confirms (nm, out) = true → init_connection rs = Except.ok nm) := by
  refine ⟨?_, ?_, ?_, ?_⟩
  · unfold init_connection
    cases hscan : scan_resources rs.reverse with
    | none =>
      rw [scan_resources_eq_none_iff] at hscan
      simp only [List.mem_reverse] at hscan
      exact iff_of_true rfl hscan
    | some nm =>
      simp only [reduceCtorEq, false_iff]
      intro hall
      have : scan_resources rs.reverse = none := by
        rw [scan_resources_eq_none_iff]
        intro p hp
        exact hall p (List.mem_reverse.mp hp)
      rw [this] at hscan
      cases hscan
  · rintro rfl
    rfl
  · rintro ⟨p, hp, hconf⟩
    unfold init_connection
    cases hscan : scan_resources rs.reverse with
    | none =>
      rw [scan_resources_eq_none_iff] at hscan
      have := hscan p (List.mem_reverse.mpr hp)
      rw [hconf] at this
      cases this
    | some nm => exact ⟨nm, rfl⟩
  · rintro front nm out rfl hconf
    unfold init_connection
    rw [List.reverse_append]
    cases out with
    | raises => cases hconf
    | responds h =>
      have hh : 0 < h.length := by
        simpa [resource_confirms] using hconf
      simp [scan_resources, hh]

/-- Witness for C9: the empty list fails with the dedicated error; a list
whose last-enumerated resource answers the probe connects to that
resource even though the first raises; a list whose only resource raises
fails. -/
theorem init_connection_spec_witness :
    init_connection [] = Except.error PyExc.prologixNotFound
    ∧ init_connection
        [("CONN1", ProbeOutcome.raises),
          ("CONN2", ProbeOutcome.responds "Prologix help text")]
        = Except.ok "CONN2"
    ∧ init_connection [("CONN1", ProbeOutcome.raises)]
        = Except.error PyExc.prologixNotFound := by
  refine ⟨(init_connection_spec []).2.1 rfl, ?_, ?_⟩
  · exact (init_connection_spec _).2.2.2 [("CONN1", ProbeOutcome.raises)]
      "CONN2" (ProbeOutcome.responds "Prologix help text") rfl (by decide)
  · exact (init_connection_spec _).1.mpr (by decide)

/-- C1 evaluated on the code.  First conjunct: with all three slots
configured for plain voltage and only slot 2's device raising, the pass
does complete with the sentinel in exactly that column — a communication
fault alone never aborts the pass.  Remaining conjuncts: with slot 1
configured for temperature conversion and its device responding normally
(the repository's own `test_query_instruments_temperature` scenario), the
cleaned reading — a `str` — reaches `volts_to_celcius`, whose range assert
raises `TypeError`, which the `except AssertionError` handler does not
catch; the pass aborts with no three-reading result, and `do_logging`
therefore writes no row, contradicting "the pass always produces a
complete result". -/
theorem query_pass_completeness_eval :
    query_instruments threeState (QueryOutcome.responds " 1.5\r\n")
        QueryOutcome.raises (QueryOutcome.responds " 2.5\r\n") dt0
      = Except.ok (dt0, "1.5", "#ERROR", "2.5")
    ∧ query_instruments tempState (QueryOutcome.responds "1E-03")
        (QueryOutcome.responds " 2.5\r\n") QueryOutcome.raises dt0
      = Except.error PyExc.typeError
    ∧ do_logging tempState (QueryOutcome.responds "1E-03")
        (QueryOutcome.responds " 2.5\r\n") QueryOutcome.raises dt0
      = Except.error PyExc.typeError := by
  refine ⟨rfl, rfl, rfl⟩

/-- C3 evaluated on the code.  The cleaned out-of-range reading `"12345"`
(the repository's own
`test_query_instruments_invalid_temperature_reading` scenario) is indeed
piped into `volts_to_celcius`, but its column never becomes the sentinel:
the float/str comparison in the range assert raises `TypeError` rather
than `AssertionError`, the only exception the conversion handler catches,
so the slot's exception escapes `query_instruments`, the pass aborts
instead of continuing to the next slot, and no row is produced. -/
theorem temp_conversion_range_failure_eval :
    clean_response " 12345\r\n" = "12345"
    ∧ volts_to_celcius (PyVal.str "12345") = Except.error PyExc.typeError
    ∧ query_slot ⟨22, true⟩ (QueryOutcome.responds " 12345\r\n")
        = Except.error PyExc.typeError
    ∧ query_instruments tempState (QueryOutcome.responds " 12345\r\n")
        QueryOutcome.raises QueryOutcome.raises dt0
      = Except.error PyExc.typeError := by
  refine ⟨rfl, rfl, rfl, rfl⟩

/-! Machinery for C7: recovering the columns of a written line. -/

/-- Split a character sequence at every comma (the column structure of a
quote-free CSV record). -/
def splitCols : List Char → List (List Char)
  | [] => [[]]
  | c :: rest =>
    let r := splitCols rest
    if c = ',' then [] :: r
    else (c :: r.headD []) :: r.tail

/-- Columns of a line, as strings. -/
def splitLine (s : String) : List String :=
  (splitCols s.data).map String.mk

/-- A field the excel dialect leaves unquoted contains no comma. -/
theorem no_comma_of_plain {f : String} (h : csvNeedsQuote f = false) :
    ',' ∉ f.data := by
  intro hmem
  have := List.any_eq_false.mp h ',' hmem
  simp at this

/-- The excel dialect writes a metacharacter-free field verbatim. -/
theorem csvField_of_plain {f : String} (h : csvNeedsQuote f = false) :
    csvField f = f := by
  simp [csvField, h]

theorem splitCols_no_comma {cs : List Char} (h : ',' ∉ cs) :
    splitCols cs = [cs] := by
  induction cs with
  | nil => rfl
  | cons c rest ih =>
    have hc : ¬ c = ',' := fun hcc => h (hcc ▸ List.mem_cons_self c rest)
    have hrest : ',' ∉ rest := fun hm => h (List.mem_cons_of_mem c hm)
    simp [splitCols, hc, ih hrest]

theorem splitCols_comma_append {f : List Char} (t : List Char)
    (h : ',' ∉ f) : splitCols (f ++ ',' :: t) = f :: splitCols t := by
  induction f with
  | nil => simp [splitCols]
  | cons c f2 ih =>
    have hc : ¬ c = ',' := fun hcc => h (hcc ▸ List.mem_cons_self c f2)
    have hf2 : ',' ∉ f2 := fun hm => h (List.mem_cons_of_mem c hm)
    have ih2 : splitCols (List.append f2 (',' :: t)) = f2 :: splitCols t := ih hf2
    simp only [List.cons_append, splitCols, hc, if_false, ih2,
      List.headD_cons, List.tail_cons]

/-- Splitting a comma-join of comma-free fields recovers the fields. -/
theorem splitLine_csvJoin (fields : List String) (hne : fields ≠ [])
    (h : ∀ f ∈ fields, ',' ∉ f.data) :
    splitLine (csvJoin fields) = fields := by
  induction fields with
  | nil => exact absurd rfl hne
  | cons f rest ih =>
    cases rest with
    | nil =>
      have hf : ',' ∉ f.data := h f (List.mem_cons_self f [])
      simp [csvJoin, splitLine, splitCols_no_comma hf]
    | cons g rest2 =>
      have hf : ',' ∉ f.data := h f (List.mem_cons_self f (g :: rest2))
      have hih := ih (by simp)
        (fun x hx => h x (List.mem_cons_of_mem f hx))
      have hdata : (f ++ "," ++ csvJoin (g :: rest2)).data
          = f.data ++ ',' :: (csvJoin (g :: rest2)).data := by
        simp [String.data_append]
      unfold splitLine at hih ⊢
      simp only [csvJoin, hdata, splitCols_comma_append _ hf, List.map_cons]
      rw [hih]

/-- The four fields of one written row: `str(timestamp)` then the three
instrument readings, in the fixed schema order. -/
def rowFields (r : Datetime × String × String × String) : List String :=
  [r.1.strRepr, r.2.1, r.2.2.1, r.2.2.2]

/-- A sequence of `DataWriter.write` calls against a writer. -/
def writeAll (w : DataWriter)
    (rows : List (Datetime × String × String × String)) : DataWriter :=
  rows.foldl (fun acc r => acc.write r.1 r.2.1 r.2.2.1 r.2.2.2) w

theorem writeAll_lines (rows : List (Datetime × String × String × String))
    (w : DataWriter) :
    (writeAll w rows).lines
      = w.lines ++ rows.map (fun r => csvLine (rowFields r)) := by
  induction rows generalizing w with
  | nil => simp [writeAll]
  | cons r rest ih =>
    simp only [writeAll, List.foldl_cons, List.map_cons] at ih ⊢
    rw [ih]
    simp [DataWriter.write, rowFields]

/-- C7: a freshly created log writer holds exactly the header row
`timestamp,instrument 1,instrument 2,instrument 3`; after any sequence of
N row-writes whose field values are free of CSV metacharacters (comma,
quote, CR, LF — which every value the logger produces is: `str(datetime)`,
decimal strings, the empty string, `#ERROR`), the file holds exactly N+1
lines in write order: the header followed by, for each write, the verbatim
comma-join of its four values, whose comma-split recovers exactly the
written timestamp and three readings.  Flushing is by construction: the
modelled file content reflects every completed write. -/
theorem datawriter_roundtrip (rows : List (Datetime × String × String × String))
    (h : ∀ r ∈ rows, ∀ f ∈ rowFields r, csvNeedsQuote f = false) :
    (writeAll DataWriter.create rows).lines
        = "timestamp,instrument 1,instrument 2,instrument 3"
            :: rows.map (fun r => csvLine (rowFields r))
    ∧ (writeAll DataWriter.create rows).lines.length = rows.length + 1
    ∧ ∀ r ∈ rows,
        csvLine (rowFields r)
            = r.1.strRepr ++ "," ++ r.2.1 ++ "," ++ r.2.2.1 ++ "," ++ r.2.2.2
        ∧ splitLine (csvLine (rowFields r)) = rowFields r := by
  have hlines := writeAll_lines rows DataWriter.create
  have hheader : DataWriter.create.lines
      = ["timestamp,instrument 1,instrument 2,instrument 3"] := rfl
  refine ⟨?_, ?_, ?_⟩
  · rw [hlines, hheader]
    rfl
  · rw [hlines, hheader]
    simp
  · intro r hr
    have hplain := h r hr
    have hmap : (rowFields r).map csvField = rowFields r := by
      have e1 := csvField_of_plain (hplain r.1.strRepr (by simp [rowFields]))
      have e2 := csvField_of_plain (hplain r.2.1 (by simp [rowFields]))
      have e3 := csvField_of_plain (hplain r.2.2.1 (by simp [rowFields]))
      have e4 := csvField_of_plain (hplain r.2.2.2 (by simp [rowFields]))
      simp [rowFields, e1, e2, e3, e4]
    have hjoin : csvLine (rowFields r) = csvJoin (rowFields r) := by
      rw [csvLine, hmap]
    constructor
    · rw [hjoin]
      show r.1.strRepr ++ "," ++ (r.2.1 ++ "," ++ (r.2.2.1 ++ "," ++ r.2.2.2))
          = r.1.strRepr ++ "," ++ r.2.1 ++ "," ++ r.2.2.1 ++ "," ++ r.2.2.2
      simp [String.append_assoc]
    · rw [hjoin]
      exact splitLine_csvJoin (rowFields r) (by simp [rowFields])
        (fun f hf => no_comma_of_plain (hplain f hf))

/-- Witness for C7 at a concrete two-row sequence. -/
theorem datawriter_roundtrip_witness :
    (writeAll DataWriter.create
        [(dt0, "1.23", "4.56", "7.89"), (dt0, "0.12", "", "#ERROR")]).lines.length
      = 3
    ∧ splitLine (csvLine (rowFields (dt0, "1.23", "4.56", "7.89")))
        = [dt0.strRepr, "1.23", "4.56", "7.89"] := by
  have h := datawriter_roundtrip
    [(dt0, "1.23", "4.56", "7.89"), (dt0, "0.12", "", "#ERROR")] (by decide)
  constructor
  · rw [h.2.1]
    rfl
  · exact (h.2.2 (dt0, "1.23", "4.56", "7.89") (by simp)).2
